import Mathlib

/-!
# Verification of the SignSpeak sign-detection component

Shallow embedding of `src/components/SignDetection.tsx` (the file contains two
variants of the component; both are embedded where a claim refers to both).

* `classifyGesture` embeds the pure gesture classifier (second variant,
  lines 462–537): 21 normalized 3-D landmarks, geometric threshold rules,
  nine possible labels or no match.  Coordinates are modelled as rationals;
  every JavaScript number appearing in the rules (0.85, 0.1, …) is exactly
  representable, and all the source does with coordinates is subtract,
  square, and compare, so the rational model agrees with the double model
  on these predicates for representable inputs.
* The accumulated-text state (`appendText`, `appendTextDedup`, `clearText`)
  embeds `processLandmarks` (first variant, lines 189–194),
  `processGesture` (second variant, lines 626–635) and `clearText`
  (lines 281–285 / 834–838).  JavaScript strings are modelled as `List Char`
  (`JsStr`); `jsSplitSpace` implements `String.prototype.split(' ')`.
* `gestureStep` embeds the 3-in-a-row stability gate of `processGesture`
  (lines 591–600 and 637–639).
* `computeDisplayText` embeds the translation branch of `processGesture`
  (lines 605–623).
* `startDetection1` / `startDetection2` embed the error mapping of the two
  `startDetection` variants (lines 204–261 and 642–810).
-/

/-- A hand landmark: one normalized 3-D point, the source's `[x, y, z]`
array (`lm[0]`, `lm[1]`, `lm[2]`). -/
structure Point where
  x : ℚ
  y : ℚ
  z : ℚ
deriving DecidableEq, Repr

/-- Return value of `classifyGesture`: `{ gesture: string; confidence: number }`. -/
structure DetectionResult where
  gesture : String
  confidence : ℚ
deriving DecidableEq, Repr

/-- `landmarks[i]`.  The default is never relevant: `classifyGesture` reads
landmarks only under its `landmarks.length !== 21` guard, and every index it
uses is ≤ 20. -/
def pt (landmarks : List Point) (i : Nat) : Point :=
  landmarks.getD i ⟨0, 0, 0⟩

/-- `const thumbExtended = thumbTip[0] < landmarks[3][0]` (line 478). -/
def thumbExtended (l : List Point) : Bool :=
  decide ((pt l 4).x < (pt l 3).x)

/-- `const indexExtended = indexTip[1] < indexMcp[1]` (line 479). -/
def indexExtended (l : List Point) : Bool :=
  decide ((pt l 8).y < (pt l 5).y)

/-- `const middleExtended = middleTip[1] < middleMcp[1]` (line 480). -/
def middleExtended (l : List Point) : Bool :=
  decide ((pt l 12).y < (pt l 9).y)

/-- `const ringExtended = ringTip[1] < ringMcp[1]` (line 481). -/
def ringExtended (l : List Point) : Bool :=
  decide ((pt l 16).y < (pt l 13).y)

/-- `const pinkyExtended = pinkyTip[1] < pinkyMcp[1]` (line 482). -/
def pinkyExtended (l : List Point) : Bool :=
  decide ((pt l 20).y < (pt l 17).y)

/-- `[indexExtended, middleExtended, ringExtended, pinkyExtended].filter(Boolean).length`
(line 485). -/
def extendedCount (l : List Point) : Nat :=
  ([indexExtended l, middleExtended l, ringExtended l, pinkyExtended l].filter
    (fun b => b)).length

/-- Square of `thumbIndexDist` (lines 529–531).  The source compares
`Math.sqrt(dx² + dy²) < 0.1`; since both sides are nonnegative and squaring
is monotone, this is equivalent to `dx² + dy² < 0.01`, which is what
`classifyGesture` below tests. -/
def thumbIndexDistSq (l : List Point) : ℚ :=
  ((pt l 4).x - (pt l 8).x) ^ 2 + ((pt l 4).y - (pt l 8).y) ^ 2

/-- The gesture classifier, `classifyGesture` (lines 462–537). -/
def classifyGesture (landmarks : List Point) : Option DetectionResult :=
  if landmarks.length ≠ 21 then none
  else if thumbExtended landmarks && (extendedCount landmarks == 0) then
    some ⟨"Yes", 0.85⟩
  else if indexExtended landmarks && middleExtended landmarks &&
      !ringExtended landmarks && !pinkyExtended landmarks then
    some ⟨"2", 0.82⟩
  else if indexExtended landmarks && !middleExtended landmarks &&
      !ringExtended landmarks && !pinkyExtended landmarks then
    some ⟨"1", 0.85⟩
  else if indexExtended landmarks && middleExtended landmarks &&
      ringExtended landmarks && !pinkyExtended landmarks then
    some ⟨"3", 0.80⟩
  else if indexExtended landmarks && middleExtended landmarks &&
      ringExtended landmarks && pinkyExtended landmarks &&
      !thumbExtended landmarks then
    some ⟨"4", 0.80⟩
  else if thumbExtended landmarks && indexExtended landmarks &&
      middleExtended landmarks && ringExtended landmarks &&
      pinkyExtended landmarks then
    some ⟨"Hello", 0.88⟩
  else if thumbExtended landmarks && indexExtended landmarks &&
      !middleExtended landmarks && !ringExtended landmarks &&
      pinkyExtended landmarks then
    some ⟨"I Love You", 0.85⟩
  else if !thumbExtended landmarks && (extendedCount landmarks == 0) then
    some ⟨"No", 0.80⟩
  else if decide (thumbIndexDistSq landmarks < 0.01) &&
      middleExtended landmarks && ringExtended landmarks &&
      pinkyExtended landmarks then
    some ⟨"Thank You", 0.82⟩
  else none

/-- All 21 landmarks at the origin: a closed fist (no predicate holds), so
the classifier answers `"No"`. -/
def fistExample : List Point := List.replicate 21 ⟨0, 0, 0⟩

/-- An open hand: thumb tip left of landmark 3, every finger tip above its
MCP knuckle.  All five extension predicates hold. -/
def openHandExample : List Point :=
  [⟨0, 0, 0⟩, ⟨0, 0, 0⟩, ⟨0, 0, 0⟩, ⟨1, 0, 0⟩, ⟨0, 0, 0⟩,
   ⟨0, 1, 0⟩, ⟨0, 0, 0⟩, ⟨0, 0, 0⟩, ⟨0, 0, 0⟩,
   ⟨0, 1, 0⟩, ⟨0, 0, 0⟩, ⟨0, 0, 0⟩, ⟨0, 0, 0⟩,
   ⟨0, 1, 0⟩, ⟨0, 0, 0⟩, ⟨0, 0, 0⟩, ⟨0, 0, 0⟩,
   ⟨0, 1, 0⟩, ⟨0, 0, 0⟩, ⟨0, 0, 0⟩, ⟨0, 0, 0⟩]

/-- A JavaScript string, modelled as its list of characters. -/
abbrev JsStr := List Char

/-- The unconditional text append of `processLandmarks` (first variant,
lines 190–191) and the append arm of `processGesture` (second variant,
line 630): `prev ? prev + ' ' + displayText : displayText`. -/
def appendText (prev label : JsStr) : JsStr :=
  if prev = [] then label else prev ++ ' ' :: label

/-- `String.prototype.split(' ')` on a single-space separator:
`"".split(' ')` is `[""]`, separators at the ends or doubled produce empty
segments. -/
def jsSplitSpace : JsStr → List JsStr
  | [] => [[]]
  | c :: rest =>
    if c = ' ' then [] :: jsSplitSpace rest
    else
      match jsSplitSpace rest with
      | [] => [[c]]
      | w :: ws => (c :: w) :: ws

/-- `prev.split(' ').filter(Boolean)` (line 627): the words of the
accumulated text. -/
def jsWords (s : JsStr) : List JsStr :=
  (jsSplitSpace s).filter (fun w => !w.isEmpty)

/-- The guarded text append of `processGesture` (lines 626–635): the label
is appended only when it differs from the last word of the current text
(`words[words.length - 1]` is `undefined` on an empty text, which compares
unequal to every string, modelled by `getLast?`). -/
def appendTextDedup (prev label : JsStr) : JsStr :=
  if (jsWords prev).getLast? ≠ some label then appendText prev label
  else prev

/-- Result of `clearText`: the new text plus the argument handed to the
`onDetection` callback (which is invoked exactly when the prop was
supplied). -/
structure TextEffect where
  newText : JsStr
  callbackArg : JsStr
deriving DecidableEq, Repr

/-- `clearText` (identical in both variants, lines 281–285 and 834–838):
`setDetectedText("")` then `onDetection?.("")`. -/
def clearText (_prev : JsStr) : TextEffect := ⟨[], []⟩

/-- The space-joined rendering of a list of labels: labels separated by
single spaces. -/
def spaceJoin : List JsStr → JsStr
  | [] => []
  | [l] => l
  | l :: ls => l ++ ' ' :: spaceJoin ls

/-- Whether a string contains two adjacent space characters. -/
def hasDoubleSpace : JsStr → Bool
  | a :: b :: rest => (a = ' ' && b = ' ') || hasDoubleSpace (b :: rest)
  | _ => false

/-- A label that is safe to join with single spaces: nonempty, no leading
or trailing space, no doubled space inside.  All nine recognized English
labels satisfy this. -/
def spaceClean (l : JsStr) : Prop :=
  l ≠ [] ∧ l.head? ≠ some ' ' ∧ l.getLast? ≠ some ' ' ∧ hasDoubleSpace l = false

/-- An accumulated text with no leading, trailing, or doubled spaces. -/
def textClean (t : JsStr) : Prop :=
  t.head? ≠ some ' ' ∧ t.getLast? ≠ some ' ' ∧ hasDoubleSpace t = false

instance : DecidablePred spaceClean := fun l => by
  unfold spaceClean; infer_instance

instance : DecidablePred textClean := fun t => by
  unfold textClean; infer_instance

/-- The tail of a space-joined text: a space before each label.
`spaceJoin (l :: ls) = l ++ sepJoinTail ls`. -/
def sepJoinTail : List JsStr → JsStr
  | [] => []
  | l :: ls => ' ' :: (l ++ sepJoinTail ls)

/-- Whether a word list has no two identical adjacent entries. -/
def noAdjacentDup : List JsStr → Bool
  | a :: b :: rest => decide (a ≠ b) && noAdjacentDup (b :: rest)
  | _ => true

/-- The mutable refs of `processGesture`'s stability gate:
`lastGestureRef` and `gestureCountRef` (lines 555–556). -/
structure GestureState where
  lastGesture : String
  gestureCount : Nat
deriving DecidableEq, Repr

/-- Both refs start at `""` / `0` (lines 555–556, also reset by
`stopDetection`, lines 830–831). -/
def initialGestureState : GestureState := ⟨"", 0⟩

/-- One call of `processGesture`'s stability gate (lines 591–600 and
637–639): on a repeated label the counter increments, on a different label
`lastGesture` is set and the counter resets to 1; the call returns early
(publishes nothing) while the counter is below 3, and resets the counter
to 0 after publishing.  Returns the new ref state and whether the gesture
was published. -/
def gestureStep (s : GestureState) (g : String) : GestureState × Bool :=
  let s' : GestureState :=
    if g = s.lastGesture then ⟨s.lastGesture, s.gestureCount + 1⟩ else ⟨g, 1⟩
  if s'.gestureCount < 3 then (s', false) else (⟨s'.lastGesture, 0⟩, true)

/-- The ref state after a sequence of processed detections. -/
def runGestures (s : GestureState) (gs : List String) : GestureState :=
  gs.foldl (fun st g => (gestureStep st g).1) s

/-- Whether the detection at position `i` of the trace `gs` publishes its
gesture (updates the current gesture and possibly the text). -/
def publishedAt (gs : List String) (i : Nat) : Bool :=
  (gestureStep (runGestures initialGestureState (gs.take i)) (gs.getD i "")).2

/-- Invariant of the stability gate: the stored counter never exceeds 2,
and the last `gestureCount` processed gestures all equal `lastGesture`. -/
def gestureInv (p : List String) (s : GestureState) : Prop :=
  s.gestureCount ≤ 2 ∧ s.gestureCount ≤ p.length ∧
    ∀ k, k < s.gestureCount → p.getD (p.length - 1 - k) "" = s.lastGesture

/-- The translation branch of `processGesture` (lines 605–623, same shape
in `processLandmarks`, lines 173–187).  `resp` is the `translatedText`
field of the remote call's response (`none` models a failed call or a
response without that field).  Returns whether the `translate-text`
endpoint was invoked, and the resulting `displayText`; note the JavaScript
truthiness test `if (translationData?.translatedText)` rejects the empty
string. -/
def computeDisplayText (language gesture : String) (resp : Option String) :
    Bool × String :=
  if language ≠ "en" then
    match resp with
    | some t => if t ≠ "" then (true, t) else (true, gesture)
    | none => (true, gesture)
  else (false, gesture)

/-- A JavaScript exception as `startDetection`'s catch blocks see it:
its `name`, its `message`, and whether it is an `Error` instance (the
catch blocks only set an error string under `err instanceof Error`). -/
structure JsError where
  name : String
  message : String
  isError : Bool
deriving DecidableEq, Repr

/-- Error string for `NotAllowedError`, second variant (line 802). -/
def cameraDeniedMsg2 : String :=
  "Camera access denied. Please allow camera access in your browser settings and refresh the page."

/-- Error string for `NotAllowedError`, first variant (line 251). -/
def cameraDeniedMsg1 : String :=
  "Camera access denied. Please allow camera access in your browser settings."

/-- Error string for `NotFoundError` (lines 253 and 804). -/
def noCameraMsg : String :=
  "No camera found. Please connect a camera and try again."

/-- Fallback error string of the second variant (line 806). -/
def cameraFailMsg2 : String := "Failed to start camera. Please try again."

/-- Fallback error string of the first variant (line 255). -/
def startFailMsg1 : String := "Failed to start detection. Please try again."

/-- The message of the `Error` rethrown by `initializeMediaPipe` in the
first variant (line 142). -/
def mpLoadFailMsg1 : String := "Failed to load hand tracking. Please try again."

/-- The catch-block mapping shared by both `startDetection` variants
(lines 249–257 and 800–808): `NotAllowedError` and `NotFoundError` map to
fixed strings, anything else to `err.message || fallback` (the `||` falls
through on the empty string); a thrown non-`Error` sets no error at all. -/
def mapStartError (denied notFound fallback : String) (e : JsError) :
    Option String :=
  if e.isError then
    some (if e.name = "NotAllowedError" then denied
      else if e.name = "NotFoundError" then notFound
      else if e.message ≠ "" then e.message else fallback)
  else none

/-- Observable outcome of a `startDetection` run: the displayed error
string (if any), whether the component became active, and whether hand
tracking is running (as opposed to camera-only fallback). -/
structure StartOutcome where
  error : Option String
  isActive : Bool
  trackingActive : Bool
deriving DecidableEq, Repr

/-- `startDetection`, second variant (lines 642–810): the camera is
acquired first; a camera failure is caught at lines 797–809 and mapped via
`mapStartError`.  A MediaPipe load failure afterwards is caught by the
inner catch (lines 777–795), which only logs a warning and falls back to
camera-only drawing: the component stays active and no error string is
displayed. -/
def startDetection2 (cam mp : Except JsError Unit) : StartOutcome :=
  match cam with
  | .error e => ⟨mapStartError cameraDeniedMsg2 noCameraMsg cameraFailMsg2 e, false, false⟩
  | .ok _ =>
    match mp with
    | .error _ => ⟨none, true, false⟩
    | .ok _ => ⟨none, true, true⟩

/-- `startDetection`, first variant (lines 204–261): `initializeMediaPipe`
runs first and converts any load failure into
`Error("Failed to load hand tracking. Please try again.")` (line 142),
which the outer catch maps through the same rule; then the camera is
acquired. -/
def startDetection1 (mp cam : Except JsError Unit) : StartOutcome :=
  match mp with
  | .error _ =>
    ⟨mapStartError cameraDeniedMsg1 noCameraMsg startFailMsg1 ⟨"Error", mpLoadFailMsg1, true⟩,
      false, false⟩
  | .ok _ =>
    match cam with
    | .error e => ⟨mapStartError cameraDeniedMsg1 noCameraMsg startFailMsg1 e, false, false⟩
    | .ok _ => ⟨none, true, true⟩

/-- C1: whenever `classifyGesture` returns a match, its gesture label is one
of the nine fixed strings "Yes", "No", "Hello", "1", "2", "3", "4",
"I Love You", "Thank You"; on any input it returns either `none` or such a
result. -/
theorem classifyGesture_label_mem (lms : List Point) (r : DetectionResult)
    (h : classifyGesture lms = some r) :
    r.gesture ∈ ["Yes", "No", "Hello", "1", "2", "3", "4", "I Love You", "Thank You"] := by
  unfold classifyGesture at h
  repeat' split at h
  all_goals first
    | exact Option.noConfusion h
    | (injection h with h; subst h; decide)

/-- Witness for C1: the all-zero fist input is classified as "No", and "No"
is among the nine labels. -/
theorem classifyGesture_label_mem_witness :
    classifyGesture fistExample = some ⟨"No", 0.80⟩ ∧
      (DetectionResult.mk "No" 0.80).gesture ∈
        ["Yes", "No", "Hello", "1", "2", "3", "4", "I Love You", "Thank You"] :=
  ⟨by with_unfolding_all decide,
   classifyGesture_label_mem fistExample ⟨"No", 0.80⟩ (by with_unfolding_all decide)⟩

/-- C2: on any landmark list whose length is not 21 (in particular the empty
list) `classifyGesture` returns `none`; the guard precedes every landmark
read, so no geometric predicate is evaluated and no index outside the list
is accessed. -/
theorem classifyGesture_wrong_length (lms : List Point) (h : lms.length ≠ 21) :
    classifyGesture lms = none := by
  unfold classifyGesture
  simp [h]

/-- Witness for C2: the empty landmark list yields `none`. -/
theorem classifyGesture_wrong_length_witness :
    ([] : List Point).length ≠ 21 ∧ classifyGesture [] = none :=
  ⟨by decide, classifyGesture_wrong_length [] (by decide)⟩

/-- C3: on a 21-landmark input with all five fingers extended (thumb tip x
less than landmark 3 x, each finger tip y below its MCP's y), the
classifier returns "Hello" with confidence 0.88 — none of the earlier
threshold rules fires. -/
theorem classifyGesture_open_hand (lms : List Point)
    (hlen : lms.length = 21)
    (ht : thumbExtended lms = true) (hi : indexExtended lms = true)
    (hm : middleExtended lms = true) (hr : ringExtended lms = true)
    (hp : pinkyExtended lms = true) :
    classifyGesture lms = some ⟨"Hello", 0.88⟩ := by
  have hc : extendedCount lms = 4 := by
    simp [extendedCount, hi, hm, hr, hp]
  unfold classifyGesture
  simp [hlen, ht, hi, hm, hr, hp, hc]

/-- Witness for C3: a concrete open-hand landmark list is classified
"Hello" at confidence 0.88. -/
theorem classifyGesture_open_hand_witness :
    classifyGesture openHandExample = some ⟨"Hello", 0.88⟩ :=
  classifyGesture_open_hand openHandExample (by decide) (by with_unfolding_all decide)
    (by with_unfolding_all decide) (by with_unfolding_all decide)
    (by with_unfolding_all decide) (by with_unfolding_all decide)

/-- C8: every match returned by `classifyGesture` carries one of the four
exact confidences 0.80, 0.82, 0.85, 0.88, hence a confidence strictly
between 0 and 1. -/
theorem classifyGesture_confidence_values (lms : List Point) (r : DetectionResult)
    (h : classifyGesture lms = some r) :
    (r.confidence = 0.80 ∨ r.confidence = 0.82 ∨ r.confidence = 0.85 ∨
      r.confidence = 0.88) ∧ 0 < r.confidence ∧ r.confidence < 1 := by
  unfold classifyGesture at h
  repeat' split at h
  all_goals first
    | exact Option.noConfusion h
    | (injection h with h; subst h; with_unfolding_all decide)

/-- Witness for C8: the fist input's confidence is 0.80, which lies
strictly between 0 and 1. -/
theorem classifyGesture_confidence_values_witness :
    ((DetectionResult.mk "No" 0.80).confidence = 0.80 ∨
      (DetectionResult.mk "No" 0.80).confidence = 0.82 ∨
      (DetectionResult.mk "No" 0.80).confidence = 0.85 ∨
      (DetectionResult.mk "No" 0.80).confidence = 0.88) ∧
      0 < (DetectionResult.mk "No" 0.80).confidence ∧
      (DetectionResult.mk "No" 0.80).confidence < 1 :=
  classifyGesture_confidence_values fistExample ⟨"No", 0.80⟩
    (by with_unfolding_all decide)

theorem jsSplitSpace_ne_nil (s : JsStr) : jsSplitSpace s ≠ [] := by
  induction s with
  | nil => simp [jsSplitSpace]
  | cons c rest ih =>
    unfold jsSplitSpace
    split
    · simp
    · split
      · simp
      · simp

theorem jsSplitSpace_append_space (xs ys : JsStr) :
    jsSplitSpace (xs ++ ' ' :: ys) = jsSplitSpace xs ++ jsSplitSpace ys := by
  induction xs with
  | nil => simp [jsSplitSpace]
  | cons c rest ih =>
    by_cases hc : c = ' '
    · subst hc
      simp only [List.cons_append]
      rw [jsSplitSpace, jsSplitSpace, ih]
      simp [List.cons_append]
    · simp only [List.cons_append]
      rw [jsSplitSpace, jsSplitSpace, ih]
      simp only [hc, if_false]
      cases h : jsSplitSpace rest with
      | nil => exact absurd h (jsSplitSpace_ne_nil rest)
      | cons w ws => simp

theorem jsWords_append_space (xs ys : JsStr) :
    jsWords (xs ++ ' ' :: ys) = jsWords xs ++ jsWords ys := by
  simp [jsWords, jsSplitSpace_append_space]

theorem jsSplitSpace_no_space (l : JsStr) (h : ' ' ∉ l) : jsSplitSpace l = [l] := by
  induction l with
  | nil => rfl
  | cons c rest ih =>
    have hc : c ≠ ' ' := fun e => h (e ▸ List.mem_cons_self c rest)
    rw [jsSplitSpace, ih (fun hm => h (List.mem_cons_of_mem c hm))]
    simp [hc]

theorem jsWords_no_space (l : JsStr) (h1 : l ≠ []) (h2 : ' ' ∉ l) :
    jsWords l = [l] := by
  simp [jsWords, jsSplitSpace_no_space l h2, h1]

theorem noAdjacentDup_concat (ws : List JsStr) (l : JsStr)
    (h1 : noAdjacentDup ws = true) (h2 : ws.getLast? ≠ some l) :
    noAdjacentDup (ws ++ [l]) = true := by
  induction ws with
  | nil => rfl
  | cons a ws ih =>
    cases ws with
    | nil =>
      have ha : a ≠ l := fun e => h2 (by simp [e])
      simp [noAdjacentDup, ha]
    | cons b ws' =>
      simp only [noAdjacentDup, Bool.and_eq_true, decide_eq_true_eq] at h1
      have hl : (b :: ws').getLast? ≠ some l := by
        simpa using h2
      have hrec := ih h1.2 hl
      simp only [List.cons_append, noAdjacentDup, Bool.and_eq_true, decide_eq_true_eq]
      exact ⟨h1.1, by simpa using hrec⟩

theorem hasDoubleSpace_space_cons (rest : JsStr) (hhead : rest.head? ≠ some ' ')
    (hrest : hasDoubleSpace rest = false) :
    hasDoubleSpace (' ' :: rest) = false := by
  cases rest with
  | nil => rfl
  | cons r rs =>
    have hr : r ≠ ' ' := by simpa using hhead
    simp only [hasDoubleSpace] at hrest ⊢
    simp [hr, hrest]

theorem hasDoubleSpace_join (l rest : JsStr) (hl : hasDoubleSpace l = false)
    (hlast : l.getLast? ≠ some ' ') (hhead : rest.head? ≠ some ' ')
    (hrest : hasDoubleSpace rest = false) :
    hasDoubleSpace (l ++ ' ' :: rest) = false := by
  induction l with
  | nil => exact hasDoubleSpace_space_cons rest hhead hrest
  | cons x xs ih =>
    cases xs with
    | nil =>
      have hx : x ≠ ' ' := by simpa using hlast
      have h2 := hasDoubleSpace_space_cons rest hhead hrest
      simp only [List.cons_append, List.nil_append, hasDoubleSpace]
      simp [hx, h2]
    | cons y l' =>
      simp only [hasDoubleSpace, Bool.or_eq_false_iff] at hl
      have hlast' : (y :: l').getLast? ≠ some ' ' := by simpa using hlast
      have hrec := ih hl.2 hlast'
      simp only [List.cons_append] at hrec ⊢
      simp only [hasDoubleSpace, Bool.or_eq_false_iff]
      exact ⟨hl.1, hrec⟩

theorem spaceJoin_cons (l : JsStr) (ls : List JsStr) :
    spaceJoin (l :: ls) = l ++ sepJoinTail ls := by
  induction ls generalizing l with
  | nil => simp [spaceJoin, sepJoinTail]
  | cons b ls₂ ih =>
    simp [spaceJoin, sepJoinTail, ih b]

theorem foldl_appendText_of_ne_nil (ls : List JsStr) (t : JsStr) (ht : t ≠ []) :
    List.foldl appendText t ls = t ++ sepJoinTail ls := by
  induction ls generalizing t with
  | nil => simp [sepJoinTail]
  | cons l ls ih =>
    have h1 : appendText t l = t ++ ' ' :: l := by simp [appendText, ht]
    rw [List.foldl_cons, h1, ih (t ++ ' ' :: l) (by simp)]
    simp [sepJoinTail]

theorem spaceJoin_clean (ls : List JsStr) (h : ∀ l ∈ ls, spaceClean l) :
    textClean (spaceJoin ls) ∧
      (ls ≠ [] → spaceJoin ls ≠ [] ∧ (spaceJoin ls).head? = ls.headI.head?) := by
  induction ls with
  | nil =>
    exact ⟨⟨by decide, by decide, rfl⟩, fun hne => absurd rfl hne⟩
  | cons l ls ih =>
    obtain ⟨hln, hlh, hll, hld⟩ := h l (List.mem_cons_self _ _)
    cases ls with
    | nil =>
      exact ⟨⟨hlh, hll, hld⟩, fun _ => ⟨hln, by simp [spaceJoin, List.headI]⟩⟩
    | cons b ls₂ =>
      obtain ⟨⟨ch, cl, cd⟩, hne⟩ := ih (fun x hx => h x (List.mem_cons_of_mem l hx))
      obtain ⟨sjn, sjh⟩ := hne (by simp)
      have hdef : spaceJoin (l :: b :: ls₂) = l ++ ' ' :: spaceJoin (b :: ls₂) := rfl
      constructor
      · refine ⟨?_, ?_, ?_⟩
        · rw [hdef, List.head?_append]
          cases l with
          | nil => exact absurd rfl hln
          | cons a l' => simpa using hlh
        · rw [hdef, List.getLast?_append_cons]
          cases hsj : spaceJoin (b :: ls₂) with
          | nil => exact absurd hsj sjn
          | cons w ws =>
            rw [hsj] at cl
            simpa using cl
        · rw [hdef]
          refine hasDoubleSpace_join l _ hld hll ?_ cd
          rw [sjh]
          exact (h b (by simp)).2.1
      · exact fun _ => ⟨by rw [hdef]; simp, by
          rw [hdef, List.head?_append]
          cases l with
          | nil => exact absurd rfl hln
          | cons a l' => simp [List.headI]⟩

theorem foldl_dedup_inv (labels : List JsStr) (t : JsStr)
    (hlabels : ∀ l ∈ labels, l ≠ [] ∧ ' ' ∉ l)
    (ht : noAdjacentDup (jsWords t) = true) :
    noAdjacentDup (jsWords (List.foldl appendTextDedup t labels)) = true := by
  induction labels generalizing t with
  | nil => exact ht
  | cons l ls ih =>
    rw [List.foldl_cons]
    refine ih _ (fun x hx => hlabels x (List.mem_cons_of_mem _ hx)) ?_
    obtain ⟨hne, hsp⟩ := hlabels l (List.mem_cons_self _ _)
    unfold appendTextDedup
    split
    · rename_i hg
      unfold appendText
      split
      · rw [jsWords_no_space l hne hsp]
        rfl
      · rw [jsWords_append_space, jsWords_no_space l hne hsp]
        exact noAdjacentDup_concat _ _ ht hg
    · exact ht

theorem gestureStep_same_lt (s : GestureState) (g : String)
    (hg : g = s.lastGesture) (hc : s.gestureCount + 1 < 3) :
    gestureStep s g = (⟨s.lastGesture, s.gestureCount + 1⟩, false) := by
  simp [gestureStep, hg, hc]

theorem gestureStep_same_ge (s : GestureState) (g : String)
    (hg : g = s.lastGesture) (hc : ¬ s.gestureCount + 1 < 3) :
    gestureStep s g = (⟨s.lastGesture, 0⟩, true) := by
  simp [gestureStep, hg, hc]

theorem gestureStep_diff (s : GestureState) (g : String)
    (hg : ¬ g = s.lastGesture) :
    gestureStep s g = (⟨g, 1⟩, false) := by
  simp [gestureStep, hg]

theorem gestureInv_step (p : List String) (s : GestureState) (g : String)
    (h : gestureInv p s) : gestureInv (p ++ [g]) (gestureStep s g).1 := by
  obtain ⟨h2, hlen, hk⟩ := h
  by_cases hg : g = s.lastGesture
  · by_cases hc : s.gestureCount + 1 < 3
    · rw [gestureStep_same_lt s g hg hc]
      unfold gestureInv
      dsimp only
      refine ⟨by omega, by simp; omega, fun k hkc => ?_⟩
      simp only [List.length_append, List.length_singleton]
      cases k with
      | zero =>
        have : p.length + 1 - 1 - 0 = p.length := by omega
        rw [this]
        have : (p ++ [g]).getD p.length "" = g := by
          simp [List.getD_eq_getElem?_getD, List.getElem?_append_right (Nat.le_refl _)]
        rw [this, hg]
      | succ k' =>
        have hk'c : k' < s.gestureCount := by omega
        have hkp : k' + 1 ≤ p.length := by omega
        have hidx : p.length + 1 - 1 - (k' + 1) = p.length - 1 - k' := by omega
        rw [hidx]
        have hlt : p.length - 1 - k' < p.length := by omega
        have : (p ++ [g]).getD (p.length - 1 - k') "" = p.getD (p.length - 1 - k') "" := by
          simp [List.getD_eq_getElem?_getD, List.getElem?_append_left hlt]
        rw [this]
        exact hk k' hk'c
    · rw [gestureStep_same_ge s g hg hc]
      unfold gestureInv
      dsimp only
      exact ⟨by omega, by omega, fun k hkc => absurd hkc (by omega)⟩
  · rw [gestureStep_diff s g hg]
    unfold gestureInv
    dsimp only
    refine ⟨by omega, by simp, fun k hkc => ?_⟩
    have hk0 : k = 0 := by omega
    subst hk0
    simp only [List.length_append, List.length_singleton]
    have : p.length + 1 - 1 - 0 = p.length := by omega
    rw [this]
    simp [List.getD_eq_getElem?_getD, List.getElem?_append_right (Nat.le_refl _)]

theorem gestureInv_run (gs : List String) :
    gestureInv gs (runGestures initialGestureState gs) := by
  induction gs using List.reverseRecOn with
  | nil =>
    exact ⟨by simp [runGestures, initialGestureState],
      by simp [runGestures, initialGestureState],
      fun k hk => absurd hk (by simp [runGestures, initialGestureState])⟩
  | append_singleton p g ih =>
    have hr : runGestures initialGestureState (p ++ [g]) =
        (gestureStep (runGestures initialGestureState p) g).1 := by
      simp [runGestures, List.foldl_append]
    rw [hr]
    exact gestureInv_step p _ g ih

/-- Claim C4, counterexample to the claim as stated: the appended display
label may be a translated string, and a translated label starting with a
space yields a doubled space in the accumulated text ("Hello" then " Yes"
gives "Hello  Yes"), so the text can contain doubled spaces. -/
theorem detectedText_space_cex :
    appendText (appendText [] ("Hello").data) ((" Yes").data) = ("Hello  Yes").data ∧
    hasDoubleSpace (("Hello  Yes").data) = true :=
  ⟨by decide, by decide⟩

/-- Claim C4 (amended): starting from the empty string, the accumulated
text after a sequence of appends is exactly the space-joined sequence of
the appended labels; provided every appended label is nonempty with no
leading, trailing, or doubled space (true of all nine recognized English
labels), the text has no leading, trailing, or doubled spaces; and
clearing resets the text to the empty string. -/
theorem detectedText_space_joined (labels : List JsStr)
    (h : ∀ l ∈ labels, spaceClean l) :
    List.foldl appendText [] labels = spaceJoin labels ∧
    textClean (spaceJoin labels) ∧
    ∀ t : JsStr, (clearText t).newText = [] := by
  refine ⟨?_, (spaceJoin_clean labels h).1, fun t => rfl⟩
  cases labels with
  | nil => rfl
  | cons l ls =>
    have hl := h l (List.mem_cons_self _ _)
    have h0 : appendText [] l = l := by simp [appendText]
    rw [List.foldl_cons, h0, foldl_appendText_of_ne_nil ls l hl.1, spaceJoin_cons]

/-- Witness for C4 (amended): appending "Hello" then "Yes" to the empty
text yields their space-joined rendering, which is clean. -/
theorem detectedText_space_joined_witness :
    List.foldl appendText [] [("Hello").data, ("Yes").data] =
        spaceJoin [("Hello").data, ("Yes").data] ∧
      textClean (spaceJoin [("Hello").data, ("Yes").data]) :=
  ⟨(detectedText_space_joined [("Hello").data, ("Yes").data] (by decide)).1,
   (detectedText_space_joined [("Hello").data, ("Yes").data] (by decide)).2.1⟩

/-- Claim C5: `clearText` empties the displayed text and passes the empty
string to the `onDetection` callback, regardless of the prior text. -/
theorem clearText_empties (prev : JsStr) :
    (clearText prev).newText = [] ∧ (clearText prev).callbackArg = [] :=
  ⟨rfl, rfl⟩

/-- Claim C6, counterexample to the claim as stated: in the second
`startDetection` variant a hand-tracking library load failure is caught by
the inner catch and the component falls back to camera-only display — the
component stays active and no error string is displayed, so the load
failure is not mapped to a displayed error string. -/
theorem startDetection_mp_silent_cex :
    (startDetection2 (.ok ()) (.error ⟨"Error", "Failed to load MediaPipe", true⟩)).error
        = none ∧
    (startDetection2 (.ok ()) (.error ⟨"Error", "Failed to load MediaPipe", true⟩)).isActive
        = true :=
  ⟨rfl, rfl⟩

/-- Claim C6 (amended): every failure during start is caught.  In both
variants a `NotAllowedError` maps to the camera-access-denied message and
a `NotFoundError` to the no-camera-found message.  A hand-tracking library
load failure is mapped to the displayed
"Failed to load hand tracking. Please try again." string in the first
variant, while the second variant catches it and falls back to camera-only
display with no error string. -/
theorem startDetection_error_mapping (e : JsError) (mp : Except JsError Unit)
    (he : e.isError = true) :
    (e.name = "NotAllowedError" →
        (startDetection2 (.error e) mp).error = some cameraDeniedMsg2 ∧
        (startDetection1 (.ok ()) (.error e)).error = some cameraDeniedMsg1) ∧
    (e.name = "NotFoundError" →
        (startDetection2 (.error e) mp).error = some noCameraMsg ∧
        (startDetection1 (.ok ()) (.error e)).error = some noCameraMsg) ∧
    ((startDetection2 (.ok ()) (.error e)).error = none ∧
        (startDetection2 (.ok ()) (.error e)).isActive = true) ∧
    (startDetection1 (.error e) (.ok ())).error = some mpLoadFailMsg1 := by
  refine ⟨fun hn => ?_, fun hn => ?_, ⟨rfl, rfl⟩, ?_⟩
  · constructor <;> simp [startDetection2, startDetection1, mapStartError, he, hn]
  · constructor <;> simp [startDetection2, startDetection1, mapStartError, he, hn]
  · simp [startDetection1, mapStartError, mpLoadFailMsg1]

/-- Witness for C6 (amended): a denied camera permission displays the
camera-access-denied message. -/
theorem startDetection_error_mapping_witness :
    (startDetection2 (.error ⟨"NotAllowedError", "", true⟩) (.ok ())).error =
      some cameraDeniedMsg2 :=
  ((startDetection_error_mapping ⟨"NotAllowedError", "", true⟩ (.ok ()) rfl).1 rfl).1

/-- Claim C7: the translate-text endpoint is invoked exactly when the
selected language is not "en"; and whenever it is not invoked, or the call
fails, or it returns no (nonempty) translated text, the display text is
the English gesture label itself. -/
theorem processGesture_translation (language gesture : String) (resp : Option String) :
    ((computeDisplayText language gesture resp).1 = true ↔ language ≠ "en") ∧
    ((computeDisplayText language gesture resp).1 = false ∨ resp = none ∨ resp = some "" →
      (computeDisplayText language gesture resp).2 = gesture) := by
  unfold computeDisplayText
  by_cases h : language = "en"
  · simp [h]
  · cases resp with
    | none => simp [h]
    | some t =>
      by_cases ht : t = ""
      · subst ht; simp [h]
      · simp [h, ht]

/-- Witness for C7: with language "es" and a failed translation call the
endpoint is invoked and the English label "Hello" is displayed. -/
theorem processGesture_translation_witness :
    (computeDisplayText "es" "Hello" none).2 = "Hello" ∧
      (computeDisplayText "es" "Hello" none).1 = true :=
  ⟨(processGesture_translation "es" "Hello" none).2 (Or.inr (Or.inl rfl)),
   (processGesture_translation "es" "Hello" none).1.mpr (by decide)⟩

/-- Claim C9, counterexample to the claim as stated: the dedup guard
compares the whole display label against the single last word, so a
multi-word label can recreate its first word next to an equal last word:
appending "Thank You" and then "You Love" yields the text
"Thank You You Love", which contains two identical consecutive words. -/
theorem detectedText_adjacent_dup_cex :
    List.foldl appendTextDedup [] [("Thank You").data, ("You Love").data] =
      ("Thank You You Love").data ∧
    noAdjacentDup (jsWords (("Thank You You Love").data)) = false :=
  ⟨by decide, by decide⟩

/-- Claim C9 (amended): `processGesture` appends a display label only when
it differs from the current last word of the text and otherwise leaves the
text unchanged; consequently, when every appended label is a nonempty
single word (no internal space), the accumulated text never contains two
identical consecutive words. -/
theorem detectedText_no_adjacent_dup (labels : List JsStr)
    (h : ∀ l ∈ labels, l ≠ [] ∧ ' ' ∉ l) :
    noAdjacentDup (jsWords (List.foldl appendTextDedup [] labels)) = true ∧
    ∀ t l, (jsWords t).getLast? = some l → appendTextDedup t l = t := by
  refine ⟨foldl_dedup_inv labels [] h rfl, fun t l hg => ?_⟩
  unfold appendTextDedup
  simp [hg]

/-- Witness for C9 (amended): the single-word labels "Hello", "Yes",
"Hello" produce a text with no identical adjacent words. -/
theorem detectedText_no_adjacent_dup_witness :
    noAdjacentDup (jsWords (List.foldl appendTextDedup []
      [("Hello").data, ("Yes").data, ("Hello").data])) = true :=
  (detectedText_no_adjacent_dup [("Hello").data, ("Yes").data, ("Hello").data]
    (by decide)).1

/-- Claim C10: a gesture is published at position `i` of the processed
trace only if `i ≥ 2` and the labels at positions `i`, `i-1`, `i-2` are
equal: the stability counter increments on a repeated label, resets to 1
on a different one, the call returns early while the counter is below 3,
and the counter resets to 0 after each publication. -/
theorem processGesture_requires_three (gs : List String) (i : Nat)
    (hi : i < gs.length) (hp : publishedAt gs i = true) :
    2 ≤ i ∧ gs.getD i "" = gs.getD (i - 1) "" ∧
      gs.getD (i - 1) "" = gs.getD (i - 2) "" := by
  unfold publishedAt at hp
  obtain ⟨h2, hlen, hk⟩ := gestureInv_run (gs.take i)
  set s := runGestures initialGestureState (gs.take i) with hs
  set g := gs.getD i "" with hgdef
  by_cases hg : g = s.lastGesture
  · by_cases hc : s.gestureCount + 1 < 3
    · rw [gestureStep_same_lt s g hg hc] at hp
      exact absurd hp (by simp)
    · have hcount : s.gestureCount = 2 := by omega
      have hlen' : (gs.take i).length = i := by
        rw [List.length_take]; omega
      rw [hlen'] at hk hlen
      have htake : ∀ j, j < i → (gs.take i).getD j "" = gs.getD j "" := by
        intro j hj
        simp [List.getD_eq_getElem?_getD, List.getElem?_take_of_lt hj]
      have hi2 : 2 ≤ i := by omega
      have e1 : gs.getD (i - 1) "" = s.lastGesture := by
        rw [← htake (i - 1) (by omega)]
        have h0 := hk 0 (by omega)
        simpa using h0
      have e2 : gs.getD (i - 2) "" = s.lastGesture := by
        rw [← htake (i - 2) (by omega)]
        have h1 := hk 1 (by omega)
        have hidx : i - 1 - 1 = i - 2 := by omega
        rw [hidx] at h1
        exact h1
      refine ⟨hi2, ?_, ?_⟩
      · rw [hg]
        exact e1.symm
      · rw [e1]
        exact e2.symm
  · rw [gestureStep_diff s g hg] at hp
    exact absurd hp (by simp)

/-- Witness for C10: on the trace "Yes", "Yes", "Yes" the third detection
publishes, and the three consecutive labels are equal. -/
theorem processGesture_requires_three_witness :
    2 ≤ 2 ∧
      (["Yes", "Yes", "Yes"] : List String).getD 2 "" =
        (["Yes", "Yes", "Yes"] : List String).getD 1 "" ∧
      (["Yes", "Yes", "Yes"] : List String).getD 1 "" =
        (["Yes", "Yes", "Yes"] : List String).getD 0 "" :=
  processGesture_requires_three ["Yes", "Yes", "Yes"] 2 (by decide) (by decide)
